import Mathlib

/-!
# Shallow embedding of the shopora-backend order-lifecycle core

This file embeds, in Lean, the cart and order logic of the repository:

* the Cart model (`src/models/Cart.js`): `calculateTotals`, `addItem`,
  `removeItem`, `updateItemQuantity`, `clearCart`;
* the Order model (`src/models/Order.js`): `calculateTotals`;
* the order controller (`src/controllers/orderController.js`):
  `createOrder`, `updateOrderToPaid`, `updateOrderStatus`;
* the Stripe webhook controller (`src/controllers/webhookController.js`):
  the `payment_intent.succeeded` branch of `stripeWebhook`.

JavaScript numbers are modelled as `ℚ`; `Math.round` as `⌊x + 1/2⌋`
(JavaScript rounds halves toward positive infinity); `new Date()` as an
explicit `now : ℕ` clock parameter; a thrown exception as an `Except`
error; a MongoDB collection as a `List` with first-match lookup.
-/

/-- JavaScript `Math.round`: round half toward positive infinity. -/
def mathRound (x : ℚ) : ℚ := ((⌊x + 1/2⌋ : ℤ) : ℚ)

/-- JavaScript `a || b` on a possibly-missing string (`undefined` and `''`
are falsy). -/
def jsOrString (a : Option String) (b : String) : String :=
  match a with
  | none => b
  | some s => if s = "" then b else s

/-- The Product document (`src/models/Product.js`), restricted to the
fields the cart/order logic reads. -/
structure Product where
  id : Nat
  name : String
  images : List String
  price : ℚ
  stock : ℚ
  inStock : Bool
  deriving Repr, DecidableEq

/-- `Product.findById`: first document in the collection with the given id. -/
def findById (db : List Product) (productId : Nat) : Option Product :=
  db.find? (fun p => p.id == productId)

/-- Persist a product document back into the collection (`product.save()`). -/
def saveProduct (db : List Product) (p : Product) : List Product :=
  db.map (fun q => if q.id == p.id then p else q)

/-- Overwrite a product's price in the collection (an external price edit). -/
def setPrice (db : List Product) (productId : Nat) (newPrice : ℚ) : List Product :=
  db.map (fun q => if q.id == productId then { q with price := newPrice } else q)

/-- A cart line (`cartItemSchema`): product reference plus a
name/image/price snapshot and a quantity. -/
structure CartItem where
  product : Nat
  name : String
  image : String
  price : ℚ
  quantity : ℚ
  deriving Repr, DecidableEq

/-- The Cart document (`cartSchema`). -/
structure Cart where
  user : Nat
  items : List CartItem
  totalPrice : ℚ
  totalItems : ℚ
  deriving Repr, DecidableEq

/-- Errors thrown by the cart methods.  `nullDeref` stands for the
JavaScript `TypeError` raised when a property of `null` is read (it is not
an `Error` thrown on purpose by the code). -/
inductive CartError where
  | productNotFound
  | outOfStock
  | insufficientStock (stock : ℚ)
  | itemNotFound
  | nullDeref
  deriving Repr, DecidableEq

namespace Cart

/-- `cartSchema.methods.calculateTotals`: recompute `totalPrice` and
`totalItems` from the items by a left fold, as the two `reduce` calls do. -/
def calculateTotals (c : Cart) : Cart :=
  { c with
    totalPrice := c.items.foldl (fun total item => total + item.price * item.quantity) 0
    totalItems := c.items.foldl (fun total item => total + item.quantity) 0 }

/-- Set the quantity of the first item matching `productId`
(the `findIndex` + index-assignment pattern of `addItem` and
`updateItemQuantity`). -/
def setQuantityFirst (productId : Nat) (q : ℚ) : List CartItem → List CartItem
  | [] => []
  | item :: rest =>
    if item.product == productId then { item with quantity := q } :: rest
    else item :: setQuantityFirst productId q rest

/-- `cartSchema.methods.addItem`.  Fetches the product (throw if absent),
throws if `inStock` is false; if the item is already in the cart, checks
`existingQty + quantity` against the live stock and updates the quantity,
otherwise pushes a new item snapshotting the product's name and price.
The image snapshot `productDoc.images?.[0]?.url || ''` always evaluates to
`''` because `images` holds plain URL strings, which have no `url`
property.  Finally recomputes the totals. -/
def addItem (db : List Product) (c : Cart) (product : Nat) (quantity : ℚ) :
    Except CartError Cart :=
  match findById db product with
  | none => .error .productNotFound
  | some productDoc =>
    if !productDoc.inStock then .error .outOfStock
    else
      match c.items.find? (fun item => item.product == product) with
      | some existing =>
        if existing.quantity + quantity > productDoc.stock then
          .error (.insufficientStock productDoc.stock)
        else
          .ok (calculateTotals { c with
            items := setQuantityFirst product (existing.quantity + quantity) c.items })
      | none =>
        .ok (calculateTotals { c with
          items := c.items ++ [{ product := product, name := productDoc.name,
                                 image := "", price := productDoc.price,
                                 quantity := quantity }] })

/-- `cartSchema.methods.removeItem`: filter the item out and recompute
totals (no error if absent). -/
def removeItem (c : Cart) (productId : Nat) : Cart :=
  calculateTotals { c with items := c.items.filter (fun item => !(item.product == productId)) }

/-- `cartSchema.methods.updateItemQuantity`.  Quantity `≤ 0` behaves as
`removeItem`.  Otherwise the item must already be in the cart; then the
product is re-fetched and — with **no null check, unlike `addItem`** — its
`stock` property is read, so a deleted product raises a `TypeError`
(`nullDeref`).  Then the live stock bound is enforced, the quantity set,
and the totals recomputed. -/
def updateItemQuantity (db : List Product) (c : Cart) (productId : Nat) (quantity : ℚ) :
    Except CartError Cart :=
  if quantity ≤ 0 then .ok (removeItem c productId)
  else
    match c.items.find? (fun item => item.product == productId) with
    | none => .error .itemNotFound
    | some _ =>
      match findById db productId with
      | none => .error .nullDeref
      | some productDoc =>
        if quantity > productDoc.stock then .error (.insufficientStock productDoc.stock)
        else .ok (calculateTotals { c with items := setQuantityFirst productId quantity c.items })

/-- `cartSchema.methods.clearCart`: empty the items and zero both totals
directly. -/
def clearCart (c : Cart) : Cart :=
  { c with items := [], totalPrice := 0, totalItems := 0 }

end Cart

/-- One cart mutation, with its parameters. -/
inductive CartOp where
  | add (productId : Nat) (quantity : ℚ)
  | update (productId : Nat) (quantity : ℚ)
  | remove (productId : Nat)
  | clear
  deriving Repr, DecidableEq

/-- Run one mutation against the cart; a thrown error leaves the persisted
cart unchanged (every throw in the cart methods happens before any field
is assigned). -/
def applyCartOp (db : List Product) (c : Cart) : CartOp → Cart
  | .add productId quantity =>
    match Cart.addItem db c productId quantity with
    | .ok c' => c'
    | .error _ => c
  | .update productId quantity =>
    match Cart.updateItemQuantity db c productId quantity with
    | .ok c' => c'
    | .error _ => c
  | .remove productId => Cart.removeItem c productId
  | .clear => Cart.clearCart c

/-- Run a sequence of mutations; each step carries the product collection
as it stands at that moment (products may be edited between mutations). -/
def runCartOps (steps : List (List Product × CartOp)) (c : Cart) : Cart :=
  steps.foldl (fun cart step => applyCartOp step.1 cart step.2) c

/-- The cart totals invariant: the stored totals equal the sums over the
items. -/
def cartInvariant (c : Cart) : Prop :=
  c.totalPrice = (c.items.map (fun item => item.price * item.quantity)).sum ∧
  c.totalItems = (c.items.map (fun item => item.quantity)).sum

instance (c : Cart) : Decidable (cartInvariant c) := by
  unfold cartInvariant; infer_instance

section CartLemmas

/-- A left fold accumulating `+ f x` computes the starting value plus the
sum of the mapped list. -/
theorem foldl_add_map {α : Type} (f : α → ℚ) :
    ∀ (l : List α) (a : ℚ), l.foldl (fun t x => t + f x) a = a + (l.map f).sum := by
  intro l
  induction l with
  | nil => intro a; simp
  | cons x xs ih =>
    intro a
    simp only [List.foldl_cons, List.map_cons, List.sum_cons, ih (a + f x)]
    ring

/-- `calculateTotals` establishes the totals invariant on any item list. -/
theorem cartInvariant_calculateTotals (c : Cart) : cartInvariant (Cart.calculateTotals c) := by
  constructor
  · show (Cart.calculateTotals c).totalPrice = _
    simp only [Cart.calculateTotals, foldl_add_map, zero_add]
  · show (Cart.calculateTotals c).totalItems = _
    simp only [Cart.calculateTotals, foldl_add_map, zero_add]

/-- A successful `addItem` returns a cart produced by `calculateTotals`. -/
theorem addItem_ok_shape {db : List Product} {c c' : Cart} {productId : Nat} {q : ℚ}
    (h : Cart.addItem db c productId q = .ok c') :
    ∃ c₀, c' = Cart.calculateTotals c₀ := by
  unfold Cart.addItem at h
  split at h
  · exact absurd h (by simp)
  · split at h
    · exact absurd h (by simp)
    · split at h
      · split at h
        · exact absurd h (by simp)
        · exact ⟨_, (Except.ok.injEq _ _ ▸ h).symm⟩
      · exact ⟨_, (Except.ok.injEq _ _ ▸ h).symm⟩

/-- A successful `updateItemQuantity` returns a cart produced by
`calculateTotals`. -/
theorem updateItemQuantity_ok_shape {db : List Product} {c c' : Cart} {productId : Nat} {q : ℚ}
    (h : Cart.updateItemQuantity db c productId q = .ok c') :
    ∃ c₀, c' = Cart.calculateTotals c₀ := by
  unfold Cart.updateItemQuantity at h
  split at h
  · exact ⟨_, (Except.ok.injEq _ _ ▸ h).symm⟩
  · split at h
    · exact absurd h (by simp)
    · split at h
      · exact absurd h (by simp)
      · split at h
        · exact absurd h (by simp)
        · exact ⟨_, (Except.ok.injEq _ _ ▸ h).symm⟩

/-- `clearCart` establishes the totals invariant. -/
theorem cartInvariant_clearCart (c : Cart) : cartInvariant (Cart.clearCart c) := by
  constructor <;> rfl

/-- Every single mutation preserves the totals invariant. -/
theorem cartInvariant_applyCartOp (db : List Product) (c : Cart) (op : CartOp)
    (h : cartInvariant c) : cartInvariant (applyCartOp db c op) := by
  cases op with
  | add productId quantity =>
    show cartInvariant (match Cart.addItem db c productId quantity with
      | .ok c' => c' | .error _ => c)
    cases hadd : Cart.addItem db c productId quantity with
    | ok c' =>
      obtain ⟨c₀, rfl⟩ := addItem_ok_shape hadd
      exact cartInvariant_calculateTotals c₀
    | error _ => exact h
  | update productId quantity =>
    show cartInvariant (match Cart.updateItemQuantity db c productId quantity with
      | .ok c' => c' | .error _ => c)
    cases hupd : Cart.updateItemQuantity db c productId quantity with
    | ok c' =>
      obtain ⟨c₀, rfl⟩ := updateItemQuantity_ok_shape hupd
      exact cartInvariant_calculateTotals c₀
    | error _ => exact h
  | remove productId => exact cartInvariant_calculateTotals _
  | clear => exact cartInvariant_clearCart c

end CartLemmas

/-- An order line (`orderItemSchema`): snapshot copied from the cart item. -/
structure OrderItem where
  product : Nat
  name : String
  image : String
  price : ℚ
  quantity : ℚ
  deriving Repr, DecidableEq

/-- The shipping address snapshot (`shippingAddressSchema`). -/
structure ShippingAddress where
  name : String
  phone : String
  address : String
  city : String
  state : String
  zipCode : String
  country : String
  deriving Repr, DecidableEq

/-- The gateway-reported payment payload (`paymentResultSchema`).  The
`update_time` ISO string is modelled by the clock value it prints. -/
structure PaymentResult where
  id : String
  status : String
  update_time : ℕ
  email_address : Option String
  deriving Repr, DecidableEq

/-- `paymentMethod` enum: `'stripe'` or `'cod'`. -/
inductive PaymentMethod where
  | stripe
  | cod
  deriving Repr, DecidableEq

/-- The Order document (`orderSchema`). -/
structure Order where
  id : Nat
  user : Nat
  orderItems : List OrderItem
  shippingAddress : Option ShippingAddress
  paymentMethod : PaymentMethod
  paymentResult : Option PaymentResult
  paymentIntentId : Option String
  itemsPrice : ℚ
  shippingPrice : ℚ
  taxPrice : ℚ
  totalPrice : ℚ
  isPaid : Bool
  paidAt : Option ℕ
  isDelivered : Bool
  deliveredAt : Option ℕ
  orderStatus : String
  deriving Repr, DecidableEq

namespace Order

/-- `orderSchema.methods.calculateTotals`: `itemsPrice` by a left fold over
the items, `taxPrice = Math.round(itemsPrice * 0.1)`,
`shippingPrice = itemsPrice > 500 ? 0 : 50`, and their sum as
`totalPrice`. -/
def calculateTotals (o : Order) : Order :=
  let itemsPrice := o.orderItems.foldl (fun total item => total + item.price * item.quantity) 0
  let taxPrice := mathRound (itemsPrice * (1/10))
  let shippingPrice : ℚ := if itemsPrice > 500 then 0 else 50
  { o with
    itemsPrice := itemsPrice
    taxPrice := taxPrice
    shippingPrice := shippingPrice
    totalPrice := itemsPrice + taxPrice + shippingPrice }

end Order

/-- A verified Stripe payment intent, as returned by
`verifyPaymentIntent` in `src/utils/stripe.js`. -/
structure StripeIntent where
  id : String
  status : String
  receipt_email : Option String
  deriving Repr, DecidableEq

/-- Failures reported by `createOrder` (HTTP error responses of the
controller). -/
inductive OrderError where
  | validationError
  | emptyCart
  | productNotFound (name : String)
  | outOfStockItem (name : String)
  | paymentSetupFailed (msg : String)
  deriving Repr, DecidableEq

/-- Failures reported by `updateOrderToPaid`. -/
inductive PayError where
  | alreadyPaid
  | paymentNotSuccessful
  | verificationFailed (msg : String)
  deriving Repr, DecidableEq

/-- The shipping-address guard of `createOrder`:
`!shippingAddress || !shippingAddress.address || !shippingAddress.city`
rejects the request (empty strings are falsy). -/
def validShipping : Option ShippingAddress → Bool
  | none => false
  | some a => !(a.address == "") && !(a.city == "")

/-- The stock-validation loop of `createOrder` (lines 59-76): for each cart
item re-fetch the product; a missing product stops the whole checkout with
a 404, a product that is not `inStock` or has `stock < item.quantity`
stops it with a 400. -/
def validateStock (db : List Product) : List CartItem → Option OrderError
  | [] => none
  | item :: rest =>
    match findById db item.product with
    | none => some (.productNotFound item.name)
    | some product =>
      if !product.inStock || product.stock < item.quantity then
        some (.outOfStockItem item.name)
      else validateStock db rest

/-- A cart item the stock-validation loop rejects: referenced product
missing, not in stock, or with stock below the item quantity. -/
def badCartItem (db : List Product) (item : CartItem) : Bool :=
  match findById db item.product with
  | none => true
  | some product => !product.inStock || product.stock < item.quantity

/-- The snapshot map of `createOrder` (lines 79-85): order items copied
field by field from the cart items (price snapshot from the cart). -/
def orderItemOfCartItem (item : CartItem) : OrderItem :=
  { product := item.product, name := item.name, image := item.image,
    price := item.price, quantity := item.quantity }

/-- `createOrder` (`src/controllers/orderController.js`).  The caller's
cart is given directly (the controller loads it by user id); the Stripe
`createPaymentIntent` call is given as its result `gateway` (`.ok intentId`
or a thrown error).  Returns the controller's outcome paired with the
persisted cart state: validation failures return before the order is saved
and before the cart is cleared; the cart is cleared right after the order
is saved; a failed intent creation then deletes the order (error outcome)
with the cart already cleared. -/
def createOrder (now : ℕ) (oid : Nat) (userId : Nat) (db : List Product) (cart : Cart)
    (shippingAddress : Option ShippingAddress) (paymentMethod : PaymentMethod)
    (gateway : Except String String) : Except OrderError Order × Cart :=
  if !validShipping shippingAddress then (.error .validationError, cart)
  else if cart.items.isEmpty then (.error .emptyCart, cart)
  else
    match validateStock db cart.items with
    | some e => (.error e, cart)
    | none =>
      let orderItems := cart.items.map orderItemOfCartItem
      let order : Order :=
        { id := oid, user := userId, orderItems := orderItems,
          shippingAddress := shippingAddress, paymentMethod := paymentMethod,
          paymentResult := none, paymentIntentId := none,
          itemsPrice := 0, shippingPrice := 0, taxPrice := 0, totalPrice := 0,
          isPaid := false, paidAt := none, isDelivered := false, deliveredAt := none,
          orderStatus := "pending" }
      let order := order.calculateTotals
      let order :=
        if paymentMethod = .cod then
          { order with isPaid := true, paidAt := some now, orderStatus := "processing" }
        else order
      let cart' := Cart.clearCart cart
      match paymentMethod with
      | .cod => (.ok order, cart')
      | .stripe =>
        match gateway with
        | .error msg => (.error (.paymentSetupFailed msg), cart')
        | .ok intentId => (.ok { order with paymentIntentId := some intentId }, cart')

/-- The stock decrement of `updateOrderToPaid` (lines 291-299): for each
order item, if the product still exists, `stock -= quantity` and
`inStock = stock > 0`, then save. -/
def decrementStockPaid (db : List Product) : List OrderItem → List Product
  | [] => db
  | item :: rest =>
    match findById db item.product with
    | none => decrementStockPaid db rest
    | some product =>
      decrementStockPaid
        (saveProduct db { product with
          stock := product.stock - item.quantity
          inStock := decide (product.stock - item.quantity > 0) }) rest

/-- The verification step of `updateOrderToPaid` (lines 259-284): for a
stripe order with a supplied intent id, call the adapter's
`verifyPaymentIntent` (a thrown error aborts with a 400, as does a status
other than `succeeded`) and record the gateway payload in
`paymentResult`; any other order passes through unchanged. -/
def verifyAndRecordPayment (now : ℕ) (order : Order) (paymentIntentId : Option String)
    (verify : String → Except String StripeIntent) (userEmail : String) :
    Except PayError Order :=
  match order.paymentMethod, paymentIntentId with
  | .stripe, some pid =>
    match verify pid with
    | .error msg => .error (.verificationFailed msg)
    | .ok paymentIntent =>
      if paymentIntent.status ≠ "succeeded" then .error .paymentNotSuccessful
      else
        .ok { order with
          paymentResult := some
            { id := paymentIntent.id
              status := paymentIntent.status
              update_time := now
              email_address := some (jsOrString paymentIntent.receipt_email userEmail) } }
  | _, _ => .ok order

/-- `updateOrderToPaid`, continued: the already-paid guard, then the
verification step above, then the paid transition and the stock
decrement. -/
def updateOrderToPaid (now : ℕ) (db : List Product) (order : Order)
    (paymentIntentId : Option String) (verify : String → Except String StripeIntent)
    (userEmail : String) : Except PayError (Order × List Product) :=
  if order.isPaid then .error .alreadyPaid
  else
    match verifyAndRecordPayment now order paymentIntentId verify userEmail with
    | .error e => .error e
    | .ok order₂ =>
      let order₃ := { order₂ with
        isPaid := true
        paidAt := some now
        orderStatus := "processing" }
      .ok (order₃, decrementStockPaid db order₃.orderItems)

/-- The status strings `updateOrderStatus` accepts. -/
def validStatuses : List String :=
  ["pending", "processing", "shipped", "delivered", "cancelled"]

/-- `updateOrderStatus` (`src/controllers/orderController.js`): reject an
invalid status string, assign `orderStatus`, and if the status is
`delivered` set `isDelivered` and stamp `deliveredAt` with the current
time — unconditionally, with no check that the order was already
delivered. -/
def updateOrderStatus (now : ℕ) (order : Order) (status : String) :
    Except String Order :=
  if !validStatuses.contains status then .error "Invalid status"
  else
    let order := { order with orderStatus := status }
    if status = "delivered" then
      .ok { order with isDelivered := true, deliveredAt := some now }
    else .ok order

/-- The lookup predicate of the webhook's
`Order.findOne({'paymentResult.id': paymentIntent.id})`: an order matches
only through its `paymentResult.id` field (not `paymentIntentId`). -/
def webhookOrderMatches (o : Order) (intentId : String) : Bool :=
  match o.paymentResult with
  | some pr => pr.id == intentId
  | none => false

/-- Persist an order document back into the collection (`order.save()`). -/
def saveOrder (orders : List Order) (o : Order) : List Order :=
  orders.map (fun x => if x.id == o.id then o else x)

/-- The stock decrement of the webhook (lines 73-82): `stock -= quantity`
and `inStock` set to `false` only when the new stock is `≤ 0` (it is never
reset to `true`). -/
def decrementStockWebhook (db : List Product) : List OrderItem → List Product
  | [] => db
  | item :: rest =>
    match findById db item.product with
    | none => decrementStockWebhook db rest
    | some product =>
      let product := { product with stock := product.stock - item.quantity }
      let product := if product.stock ≤ 0 then { product with inStock := false } else product
      decrementStockWebhook (saveProduct db product) rest

/-- The `payment_intent.succeeded` branch of `stripeWebhook`
(`src/controllers/webhookController.js`, lines 52-87).  Looks the order up
by `paymentResult.id`; if found and not yet paid, sets
`isPaid`/`paidAt`/`paymentResult` and decrements stock.  The source also
assigns `order.status = 'processing'`, but `status` is not a schema path
of Order (the field is `orderStatus`), so mongoose drops it on save:
`orderStatus` is left unchanged here. -/
def stripeWebhookSucceeded (now : ℕ) (db : List Product) (orders : List Order)
    (intentId : String) (receiptEmail : Option String) : List Product × List Order :=
  match orders.find? (fun o => webhookOrderMatches o intentId) with
  | none => (db, orders)
  | some order =>
    if order.isPaid then (db, orders)
    else
      let order' := { order with
        isPaid := true, paidAt := some now,
        paymentResult := some { id := intentId, status := "succeeded",
                                update_time := now, email_address := receiptEmail } }
      (decrementStockWebhook db order.orderItems, saveOrder orders order')

/-! ## Sample data used by witnesses and counterexamples -/

/-- A one-product catalog: product 1 in stock with `stock = 5`. -/
def sampleDb : List Product :=
  [{ id := 1, name := "Lipstick", images := ["url1"], price := 100, stock := 5, inStock := true }]

/-- An empty cart for user 1 (the state `Cart.create` produces). -/
def emptyCartU1 : Cart := { user := 1, items := [], totalPrice := 0, totalItems := 0 }

/-- A short mutation sequence exercising all four cart mutations. -/
def sampleSteps : List (List Product × CartOp) :=
  [(sampleDb, .add 1 2), (sampleDb, .update 1 3), (sampleDb, .add 1 1),
   (sampleDb, .remove 1), (sampleDb, .clear)]

/-! ## C1 -/

/-- C1: for every cart and every sequence of cart mutations (`addItem`,
`updateItemQuantity`, `removeItem`, `clearCart`), after each mutation the
cart's stored `totalPrice` equals `Σ item.price * item.quantity` and its
stored `totalItems` equals `Σ item.quantity`.  Since every prefix of a
sequence is itself a sequence, closure of the invariant under `runCartOps`
gives the property after each intermediate mutation. -/
theorem cart_totals_invariant_after_mutations
    (steps : List (List Product × CartOp)) (c : Cart)
    (h : cartInvariant c) : cartInvariant (runCartOps steps c) := by
  induction steps generalizing c with
  | nil => exact h
  | cons s rest ih =>
    show cartInvariant (runCartOps rest (applyCartOp s.1 c s.2))
    exact ih _ (cartInvariant_applyCartOp s.1 c s.2 h)

/-- Witness for C1 on a concrete mutation sequence. -/
theorem cart_totals_invariant_after_mutations_witness :
    cartInvariant emptyCartU1 ∧ cartInvariant (runCartOps sampleSteps emptyCartU1) :=
  ⟨by decide, cart_totals_invariant_after_mutations sampleSteps emptyCartU1 (by decide)⟩

/-! ## C2 -/

/-- C2 counterexample: the product has `stock = 5` and the cart does not
contain it, yet `addItem` with quantity 6 succeeds — it inserts the item
with quantity 6 instead of failing with `InsufficientStock`, because the
stock check in `addItem` runs only on the already-in-cart branch. -/
theorem addItem_new_item_ignores_stock_counterexample :
    (findById sampleDb 1).map Product.stock = some 5 ∧
    Cart.addItem sampleDb emptyCartU1 1 6 =
      .ok { user := 1
            items := [{ product := 1, name := "Lipstick", image := "", price := 100,
                        quantity := 6 }]
            totalPrice := 600
            totalItems := 6 } := by
  constructor
  · rfl
  · simp only [Cart.addItem, findById, sampleDb, emptyCartU1, Cart.calculateTotals]
    norm_num

/-- C2 amended: `addItem` fails with `InsufficientStock` and leaves the
cart unchanged only when the product is already in the cart and
`existingQty + quantity > product.stock`; for a product not yet in the
cart no stock-quantity check is performed and the insert succeeds (as the
counterexample shows for stock 5, quantity 6). -/
theorem addItem_insufficient_stock_existing_item
    (db : List Product) (c : Cart) (productId : Nat) (q : ℚ) (p : Product) (item : CartItem)
    (hp : findById db productId = some p) (hin : p.inStock = true)
    (hitem : c.items.find? (fun i => i.product == productId) = some item)
    (hq : item.quantity + q > p.stock) :
    Cart.addItem db c productId q = .error (.insufficientStock p.stock) ∧
    applyCartOp db c (.add productId q) = c := by
  have h1 : Cart.addItem db c productId q = .error (.insufficientStock p.stock) := by
    unfold Cart.addItem
    rw [hp]
    simp only [hin, Bool.not_true, Bool.false_eq_true, if_false, hitem, if_pos hq]
  refine ⟨h1, ?_⟩
  show (match Cart.addItem db c productId q with
    | .ok c' => c' | .error _ => c) = c
  rw [h1]

/-- A cart already holding 4 of product 1 (stock 5), used below. -/
def cartWithFour : Cart :=
  { user := 1
    items := [{ product := 1, name := "Lipstick", image := "", price := 100, quantity := 4 }]
    totalPrice := 400
    totalItems := 4 }

/-- Witness for the amended C2: with 4 already in the cart and stock 5,
adding 2 more fails with `InsufficientStock` and the cart is unchanged. -/
theorem addItem_insufficient_stock_existing_item_witness :
    Cart.addItem sampleDb cartWithFour 1 2 = .error (.insufficientStock 5) ∧
    applyCartOp sampleDb cartWithFour (.add 1 2) = cartWithFour :=
  addItem_insufficient_stock_existing_item sampleDb cartWithFour 1 2
    { id := 1, name := "Lipstick", images := ["url1"], price := 100, stock := 5, inStock := true }
    { product := 1, name := "Lipstick", image := "", price := 100, quantity := 4 }
    (by rfl) (by rfl) (by rfl) (by show (4 : ℚ) + 2 > 5; norm_num)

/-! ## C3 -/

/-- A pending order holding the given items, as `createOrder` first
builds it (totals still zero). -/
def pendingOrder (items : List OrderItem) : Order :=
  { id := 1, user := 1, orderItems := items, shippingAddress := none,
    paymentMethod := .stripe, paymentResult := none, paymentIntentId := none,
    itemsPrice := 0, shippingPrice := 0, taxPrice := 0, totalPrice := 0,
    isPaid := false, paidAt := none, isDelivered := false, deliveredAt := none,
    orderStatus := "pending" }

/-- An order whose items sum to 1000. -/
def orderItems1000 : Order :=
  pendingOrder [{ product := 1, name := "A", image := "", price := 500, quantity := 2 }]

/-- An order whose items sum to 400. -/
def orderItems400 : Order :=
  pendingOrder [{ product := 2, name := "B", image := "", price := 200, quantity := 2 }]

/-- C3: `Order.calculateTotals` computes
`itemsPrice = Σ price*quantity`, `taxPrice = round(itemsPrice * 0.10)`,
`shippingPrice = 0` iff `itemsPrice > 500` else `50`, and
`totalPrice` as their sum; in particular items summing to 1000 give
tax 100, shipping 0, total 1100, and items summing to 400 give tax 40,
shipping 50, total 490. -/
theorem order_calculateTotals_formulas :
    (∀ o : Order,
      (Order.calculateTotals o).itemsPrice
          = (o.orderItems.map (fun i => i.price * i.quantity)).sum ∧
      (Order.calculateTotals o).taxPrice
          = mathRound ((Order.calculateTotals o).itemsPrice * (1/10)) ∧
      (Order.calculateTotals o).shippingPrice
          = (if (Order.calculateTotals o).itemsPrice > 500 then (0 : ℚ) else 50) ∧
      (Order.calculateTotals o).totalPrice
          = (Order.calculateTotals o).itemsPrice + (Order.calculateTotals o).taxPrice
            + (Order.calculateTotals o).shippingPrice) ∧
    ((Order.calculateTotals orderItems1000).itemsPrice = 1000 ∧
     (Order.calculateTotals orderItems1000).taxPrice = 100 ∧
     (Order.calculateTotals orderItems1000).shippingPrice = 0 ∧
     (Order.calculateTotals orderItems1000).totalPrice = 1100) ∧
    ((Order.calculateTotals orderItems400).itemsPrice = 400 ∧
     (Order.calculateTotals orderItems400).taxPrice = 40 ∧
     (Order.calculateTotals orderItems400).shippingPrice = 50 ∧
     (Order.calculateTotals orderItems400).totalPrice = 490) := by
  refine ⟨fun o => ⟨?_, rfl, rfl, rfl⟩, ?_, ?_⟩
  · show o.orderItems.foldl (fun total item => total + item.price * item.quantity) 0 = _
    rw [foldl_add_map, zero_add]
  · simp only [Order.calculateTotals, orderItems1000, pendingOrder, mathRound]
    norm_num
  · simp only [Order.calculateTotals, orderItems400, pendingOrder, mathRound]
    norm_num

/-! ## C4 -/

/-- If some cart item is bad (missing product, out of stock, or stock
below quantity), the validation loop stops at the first such item and
reports a not-found or out-of-stock error. -/
theorem validateStock_of_bad (db : List Product) :
    ∀ items : List CartItem, (∃ item ∈ items, badCartItem db item = true) →
      ∃ e, validateStock db items = some e ∧
        ((∃ n, e = .productNotFound n) ∨ (∃ n, e = .outOfStockItem n)) := by
  intro items
  induction items with
  | nil => rintro ⟨item, hmem, -⟩; cases hmem
  | cons item rest ih =>
    rintro ⟨x, hmem, hbad⟩
    unfold validateStock
    cases hfind : findById db item.product with
    | none => exact ⟨.productNotFound item.name, rfl, .inl ⟨item.name, rfl⟩⟩
    | some product =>
      cases hcond : (!product.inStock || product.stock < item.quantity) with
      | true =>
        refine ⟨.outOfStockItem item.name, ?_, .inr ⟨item.name, rfl⟩⟩
        simp only [hcond, if_true]
      | false =>
        have hrest : ∃ y ∈ rest, badCartItem db y = true := by
          rcases List.mem_cons.mp hmem with rfl | hx
          · exfalso
            unfold badCartItem at hbad
            simp only [hfind] at hbad
            rw [hcond] at hbad
            exact Bool.false_ne_true hbad
          · exact ⟨x, hx, hbad⟩
        obtain ⟨e, he, hshape⟩ := ih hrest
        refine ⟨e, ?_, hshape⟩
        simp only [hcond, Bool.false_eq_true, if_false, he]

/-- C4: a checkout on a cart with some item whose product is missing, not
in stock, or with live stock below the item quantity fails as a whole with
a not-found or out-of-stock error; no order is created (the outcome is an
error) and the cart is returned unchanged — all-or-nothing. -/
theorem createOrder_all_or_nothing
    (now oid userId : ℕ) (db : List Product) (cart : Cart)
    (sa : Option ShippingAddress) (pm : PaymentMethod) (gw : Except String String)
    (hsa : validShipping sa = true)
    (hbad : ∃ item ∈ cart.items, badCartItem db item = true) :
    ∃ e, createOrder now oid userId db cart sa pm gw = (.error e, cart) ∧
      ((∃ n, e = .productNotFound n) ∨ (∃ n, e = .outOfStockItem n)) := by
  obtain ⟨e, he, hshape⟩ := validateStock_of_bad db cart.items hbad
  have hne : cart.items.isEmpty = false := by
    obtain ⟨item, hmem, -⟩ := hbad
    cases h : cart.items with
    | nil => rw [h] at hmem; cases hmem
    | cons a l => rfl
  refine ⟨e, ?_, hshape⟩
  unfold createOrder
  rw [hsa]
  simp only [Bool.not_true, Bool.false_eq_true, if_false, hne, he]

/-- A shipping address passing the controller's validation. -/
def sampleAddress : ShippingAddress :=
  { name := "A B", phone := "9999999999", address := "12 Street", city := "Pune",
    state := "MH", zipCode := "411001", country := "India" }

/-- A cart referencing product 9, which is absent from `sampleDb`. -/
def cartStaleItem : Cart :=
  { user := 1
    items := [{ product := 9, name := "Gone", image := "", price := 50, quantity := 1 }]
    totalPrice := 50
    totalItems := 1 }

/-- Witness for C4: checking out `cartStaleItem` against `sampleDb`
(product 9 deleted) fails and leaves the cart as it was. -/
theorem createOrder_all_or_nothing_witness :
    validShipping (some sampleAddress) = true ∧
    (∃ item ∈ cartStaleItem.items, badCartItem sampleDb item = true) ∧
    ∃ e, createOrder 0 1 1 sampleDb cartStaleItem (some sampleAddress) .stripe (.ok "pi_raw")
        = (.error e, cartStaleItem) ∧
      ((∃ n, e = .productNotFound n) ∨ (∃ n, e = .outOfStockItem n)) :=
  ⟨by decide, ⟨_, List.mem_cons_self .., by decide⟩,
   createOrder_all_or_nothing 0 1 1 sampleDb cartStaleItem (some sampleAddress) .stripe
     (.ok "pi_raw") (by decide) ⟨_, List.mem_cons_self .., by decide⟩⟩

/-! ## C5 -/

/-- The verification step never changes the order items. -/
theorem verifyAndRecordPayment_ok_items
    {now : ℕ} {order order₂ : Order} {pid : Option String}
    {verify : String → Except String StripeIntent} {email : String}
    (h : verifyAndRecordPayment now order pid verify email = .ok order₂) :
    order₂.orderItems = order.orderItems := by
  unfold verifyAndRecordPayment at h
  split at h
  · split at h
    · exact absurd h (by simp)
    · split at h
      · exact absurd h (by simp)
      · cases Except.ok.inj h; rfl
  · cases Except.ok.inj h; rfl

/-- C5: once `updateOrderToPaid` has succeeded, a second call on the
updated order fails with `AlreadyPaid` and makes no state change, so the
stock decrement ran exactly once over the two calls: the product state
after the first call is exactly one application of the decrement loop, and
the failing second call returns no new state. -/
theorem markPaid_twice_decrements_once
    (now now₂ : ℕ) (db db₁ : List Product) (order order₁ : Order)
    (pid pid₂ : Option String) (verify verify₂ : String → Except String StripeIntent)
    (email email₂ : String)
    (h : updateOrderToPaid now db order pid verify email = .ok (order₁, db₁)) :
    order₁.isPaid = true ∧
    updateOrderToPaid now₂ db₁ order₁ pid₂ verify₂ email₂ = .error .alreadyPaid ∧
    db₁ = decrementStockPaid db order.orderItems := by
  unfold updateOrderToPaid at h
  split at h
  · exact absurd h (by simp)
  · cases hv : verifyAndRecordPayment now order pid verify email with
    | error e => rw [hv] at h; exact absurd h (by simp)
    | ok order₂ =>
      rw [hv] at h
      simp only at h
      have hpair := Except.ok.inj h
      have h1 : order₁ = { order₂ with
          isPaid := true, paidAt := some now, orderStatus := "processing" } :=
        (congrArg Prod.fst hpair).symm
      have h2 : db₁ = decrementStockPaid db order₂.orderItems :=
        (congrArg Prod.snd hpair).symm
      have hitems := verifyAndRecordPayment_ok_items hv
      refine ⟨by rw [h1], ?_, by rw [h2, hitems]⟩
      rw [updateOrderToPaid, h1]
      rfl

/-- A product with stock 4, decremented by the paid transition below. -/
def productC5 : Product :=
  { id := 7, name := "Serum", images := [], price := 250, stock := 4, inStock := true }

/-- An unpaid stripe order for 2 units of product 7. -/
def orderC5 : Order :=
  { id := 21, user := 2
    orderItems := [{ product := 7, name := "Serum", image := "", price := 250, quantity := 2 }]
    shippingAddress := none, paymentMethod := .stripe, paymentResult := none
    paymentIntentId := some "pi_c5", itemsPrice := 500, shippingPrice := 50, taxPrice := 50
    totalPrice := 600, isPaid := false, paidAt := none, isDelivered := false
    deliveredAt := none, orderStatus := "pending" }

/-- `orderC5` after the paid transition. -/
def orderC5Paid : Order :=
  { orderC5 with isPaid := true, paidAt := some 1, orderStatus := "processing" }

/-- The product state after the single stock decrement (4 - 2 = 2). -/
def dbC5After : List Product := decrementStockPaid [productC5] orderC5.orderItems

/-- A gateway verifier that always fails; it is never reached because no
intent id is supplied. -/
def verifyStub : String → Except String StripeIntent := fun _ => .error "unreachable"

/-- Witness for C5 at a concrete order. -/
theorem markPaid_twice_decrements_once_witness :
    orderC5Paid.isPaid = true ∧
    updateOrderToPaid 2 dbC5After orderC5Paid none verifyStub "u@example.com"
      = .error .alreadyPaid ∧
    dbC5After = decrementStockPaid [productC5] orderC5.orderItems :=
  markPaid_twice_decrements_once 1 2 [productC5] dbC5After orderC5 orderC5Paid
    none none verifyStub verifyStub "u@example.com" "u@example.com" (by rfl)

/-! ## C6 -/

/-- The product referenced by the stale webhook order. -/
def productC6 : Product :=
  { id := 3, name := "Mask", images := [], price := 300, stock := 10, inStock := true }

/-- An unpaid stripe order created by `createOrder`: the intent id is
stored in `paymentIntentId`, and `paymentResult` is not set (it is only
written by `updateOrderToPaid` or by the webhook itself). -/
def orderC6 : Order :=
  { id := 11, user := 2
    orderItems := [{ product := 3, name := "Mask", image := "", price := 300, quantity := 1 }]
    shippingAddress := none, paymentMethod := .stripe, paymentResult := none
    paymentIntentId := some "pi_1", itemsPrice := 300, shippingPrice := 50, taxPrice := 30
    totalPrice := 380, isPaid := false, paidAt := none, isDelivered := false
    deliveredAt := none, orderStatus := "pending" }

/-- C6: the webhook does **not** perform the paid-transition for an unpaid
stripe order with a stored payment intent id.  It queries
`paymentResult.id`, which is unset on every unpaid order
(`createOrder` stores the intent under `paymentIntentId`), so the lookup
finds nothing and the event leaves both the orders and the product stocks
completely unchanged — no `isPaid`, no `paidAt`, no `paymentResult`, no
stock decrement. -/
theorem webhook_misses_unpaid_order :
    orderC6.isPaid = false ∧
    orderC6.paymentIntentId = some "pi_1" ∧
    orderC6.paymentResult = none ∧
    stripeWebhookSucceeded 5 [productC6] [orderC6] "pi_1" none
      = ([productC6], [orderC6]) := by
  exact ⟨rfl, rfl, rfl, rfl⟩

/-! ## C7 -/

/-- A successful checkout builds its order items as the field-by-field
snapshot of the cart items; the product collection plays no part in the
copied values. -/
theorem createOrder_ok_orderItems
    {now oid userId : ℕ} {db : List Product} {cart : Cart} {sa : Option ShippingAddress}
    {pm : PaymentMethod} {gw : Except String String} {order : Order} {cart' : Cart}
    (h : createOrder now oid userId db cart sa pm gw = (.ok order, cart')) :
    order.orderItems = cart.items.map orderItemOfCartItem := by
  simp only [createOrder] at h
  split at h
  · exact absurd (congrArg Prod.fst h) (by simp)
  · split at h
    · exact absurd (congrArg Prod.fst h) (by simp)
    · split at h
      · exact absurd (congrArg Prod.fst h) (by simp)
      · cases pm with
        | cod =>
          have h1 := Except.ok.inj (congrArg Prod.fst h)
          rw [← h1, if_pos rfl]
          rfl
        | stripe =>
          cases gw with
          | error msg => exact absurd (congrArg Prod.fst h) (by simp)
          | ok intentId =>
            have h1 := Except.ok.inj (congrArg Prod.fst h)
            rw [← h1]
            rw [if_neg (by simp)]
            rfl

/-- C7: the price stored for a cart item is the product's price at
add-time; later edits to the product's live price change neither the
cart's stored price nor the price on the order items a later checkout
builds from that cart. -/
theorem cart_price_snapshot_frozen
    (db : List Product) (cart cart' : Cart) (productId : Nat) (q : ℚ) (p : Product)
    (hp : findById db productId = some p)
    (habsent : cart.items.find? (fun i => i.product == productId) = none)
    (hadd : Cart.addItem db cart productId q = .ok cart') :
    (cart'.items.find? (fun i => i.product == productId)).map CartItem.price
        = some p.price ∧
    (∀ (newPrice : ℚ) (now oid userId : ℕ) (sa : Option ShippingAddress)
       (pm : PaymentMethod) (gw : Except String String) (order : Order) (cartAfter : Cart),
       createOrder now oid userId (setPrice db productId newPrice) cart' sa pm gw
           = (.ok order, cartAfter) →
       (order.orderItems.find? (fun i => i.product == productId)).map OrderItem.price
           = some p.price) := by
  simp only [Cart.addItem, hp] at hadd
  split at hadd
  · exact absurd hadd (by simp)
  · rw [habsent] at hadd
    obtain rfl := (Except.ok.inj hadd).symm
    have hfind : ((Cart.calculateTotals { cart with
        items := cart.items ++ [{ product := productId, name := p.name, image := "",
                                  price := p.price, quantity := q }] }).items.find?
        (fun i => i.product == productId)) = some
        { product := productId, name := p.name, image := "", price := p.price,
          quantity := q } := by
      show ((cart.items ++ [_]).find? _) = _
      rw [List.find?_append, habsent]
      simp [List.find?]
    refine ⟨by rw [hfind]; rfl, ?_⟩
    intro newPrice now oid userId sa pm gw order cartAfter hco
    rw [createOrder_ok_orderItems hco, List.find?_map]
    show ((Cart.calculateTotals _).items.find?
      ((fun i : OrderItem => i.product == productId) ∘ orderItemOfCartItem) |>.map
        orderItemOfCartItem |>.map OrderItem.price) = some p.price
    have hcomp : ((fun i : OrderItem => i.product == productId) ∘ orderItemOfCartItem)
        = (fun i : CartItem => i.product == productId) := rfl
    rw [hcomp, hfind]
    rfl

/-- The cart produced by adding one unit of product 1 to the empty cart. -/
def cartC7 : Cart :=
  { user := 1
    items := [{ product := 1, name := "Lipstick", image := "", price := 100, quantity := 1 }]
    totalPrice := 100
    totalItems := 1 }

/-- The order a later checkout builds from `cartC7` after product 1's live
price was changed to 999: the order line still carries price 100. -/
def orderC7 : Order :=
  { id := 42, user := 1
    orderItems := [{ product := 1, name := "Lipstick", image := "", price := 100, quantity := 1 }]
    shippingAddress := some sampleAddress, paymentMethod := .stripe, paymentResult := none
    paymentIntentId := some "pi_x", itemsPrice := 100, shippingPrice := 50, taxPrice := 10
    totalPrice := 160, isPaid := false, paidAt := none, isDelivered := false
    deliveredAt := none, orderStatus := "pending" }

/-- Witness for C7 at concrete data: price snapshot 100 survives a live
price change to 999 and is what checkout copies onto the order. -/
theorem cart_price_snapshot_frozen_witness :
    (cartC7.items.find? (fun i => i.product == 1)).map CartItem.price = some 100 ∧
    (orderC7.orderItems.find? (fun i => i.product == 1)).map OrderItem.price = some 100 := by
  have h := cart_price_snapshot_frozen sampleDb emptyCartU1 cartC7 1 1
    { id := 1, name := "Lipstick", images := ["url1"], price := 100, stock := 5, inStock := true }
    (by rfl) (by rfl)
    (by simp only [Cart.addItem, findById, sampleDb, emptyCartU1, Cart.calculateTotals, cartC7]
        norm_num)
  refine ⟨h.1, ?_⟩
  refine h.2 999 0 42 1 (some sampleAddress) .stripe (.ok "pi_x") orderC7
    (Cart.clearCart cartC7) ?_
  norm_num +decide [createOrder, validShipping, sampleAddress, cartC7, validateStock,
    findById, setPrice, sampleDb, orderItemOfCartItem, Order.calculateTotals, mathRound,
    orderC7, Cart.clearCart]

/-! ## C8 -/

/-- An undelivered order in fulfilment. -/
def orderC8 : Order :=
  { pendingOrder [] with orderStatus := "processing" }

/-- `orderC8` after `setStatus 'delivered'` at time 1. -/
def orderC8Once : Order :=
  { orderC8 with orderStatus := "delivered", isDelivered := true, deliveredAt := some 1 }

/-- `orderC8Once` after a second `setStatus 'delivered'` at time 2. -/
def orderC8Twice : Order :=
  { orderC8 with orderStatus := "delivered", isDelivered := true, deliveredAt := some 2 }

/-- C8 counterexample: a second `setStatus 'delivered'` call (at clock 2,
after a first call at clock 1) overwrites `deliveredAt` with the second
call's timestamp — the originally recorded timestamp `some 1` is not
preserved, contradicting the claim. -/
theorem delivered_timestamp_overwritten_counterexample :
    updateOrderStatus 1 orderC8 "delivered" = .ok orderC8Once ∧
    updateOrderStatus 2 orderC8Once "delivered" = .ok orderC8Twice ∧
    orderC8Once.deliveredAt = some 1 ∧
    orderC8Twice.deliveredAt ≠ some 1 := by
  refine ⟨rfl, rfl, rfl, by decide⟩

/-- C8 amended: every `setStatus 'delivered'` call sets
`isDelivered = true` and stamps `deliveredAt` with that call's current
time; a second call therefore succeeds again and replaces the recorded
timestamp with its own (the original timestamp survives only if both
calls carry the same clock value). -/
theorem setStatus_delivered_stamps_each_call (t₁ t₂ : ℕ) (o : Order) :
    ∃ o₁ o₂, updateOrderStatus t₁ o "delivered" = .ok o₁ ∧
      updateOrderStatus t₂ o₁ "delivered" = .ok o₂ ∧
      o₁.isDelivered = true ∧ o₁.deliveredAt = some t₁ ∧
      o₂.isDelivered = true ∧ o₂.deliveredAt = some t₂ :=
  ⟨_, _, rfl, rfl, rfl, rfl, rfl, rfl⟩

/-! ## C9 -/

/-- C9: product 9 has been deleted from the store (`findById` is `none`),
yet the cart still holds an item referencing it.  `updateItemQuantity`
with a positive quantity then evaluates `productDoc.stock` on the missing
record: the JavaScript `TypeError` of that null dereference (`nullDeref`),
not a deliberately reported domain error — the deleted product is not
tolerated. -/
theorem updateQuantity_deleted_product_null_deref :
    findById sampleDb 9 = none ∧
    Cart.updateItemQuantity sampleDb cartStaleItem 9 2 = .error .nullDeref := by
  exact ⟨rfl, rfl⟩

/-! ## C10 -/

/-- C10: an order created with payment method `cod` is persisted already
paid (`isPaid = true`, `paidAt = now`, `orderStatus = 'processing'`) and
without a `paymentResult`; consequently every later `updateOrderToPaid`
call on it — the only stock-consuming path — fails with `AlreadyPaid`
(touching no product state), and the webhook lookup, which matches only on
`paymentResult.id`, can never select this order. -/
theorem cod_order_never_consumes_stock
    (now oid userId : ℕ) (db : List Product) (cart : Cart)
    (sa : Option ShippingAddress) (gw : Except String String)
    (order : Order) (cart' : Cart)
    (h : createOrder now oid userId db cart sa .cod gw = (.ok order, cart')) :
    order.isPaid = true ∧ order.paidAt = some now ∧
    order.orderStatus = "processing" ∧ order.paymentResult = none ∧
    (∀ (now₂ : ℕ) (db₂ : List Product) (pid₂ : Option String)
       (verify₂ : String → Except String StripeIntent) (email₂ : String),
       updateOrderToPaid now₂ db₂ order pid₂ verify₂ email₂ = .error .alreadyPaid) ∧
    (∀ s : String, webhookOrderMatches order s = false) := by
  simp only [createOrder] at h
  split at h
  · exact absurd (congrArg Prod.fst h) (by simp)
  · split at h
    · exact absurd (congrArg Prod.fst h) (by simp)
    · split at h
      · exact absurd (congrArg Prod.fst h) (by simp)
      · have h1 := (Except.ok.inj (congrArg Prod.fst h)).symm
        simp only [if_true] at h1
        have hp : order.isPaid = true := by rw [h1]
        refine ⟨hp, by rw [h1], by rw [h1], by rw [h1]; rfl, ?_, ?_⟩
        · intro now₂ db₂ pid₂ verify₂ email₂
          rw [updateOrderToPaid, hp]
          rfl
        · intro s
          show (match order.paymentResult with
            | some pr => pr.id == s | none => false) = false
          rw [show order.paymentResult = none from by rw [h1]; rfl]

/-- A cart holding 2 units of product 1, ready for a cash-on-delivery
checkout. -/
def cartC10 : Cart :=
  { user := 4
    items := [{ product := 1, name := "Lipstick", image := "", price := 100, quantity := 2 }]
    totalPrice := 200
    totalItems := 2 }

/-- The order the cash-on-delivery checkout of `cartC10` persists. -/
def orderC10 : Order :=
  { id := 77, user := 4
    orderItems := [{ product := 1, name := "Lipstick", image := "", price := 100, quantity := 2 }]
    shippingAddress := some sampleAddress, paymentMethod := .cod, paymentResult := none
    paymentIntentId := none, itemsPrice := 200, shippingPrice := 50, taxPrice := 20
    totalPrice := 270, isPaid := true, paidAt := some 9, isDelivered := false
    deliveredAt := none, orderStatus := "processing" }

/-- Witness for C10 at a concrete cash-on-delivery checkout. -/
theorem cod_order_never_consumes_stock_witness :
    orderC10.isPaid = true ∧ orderC10.paidAt = some 9 ∧
    orderC10.orderStatus = "processing" ∧ orderC10.paymentResult = none ∧
    (∀ (now₂ : ℕ) (db₂ : List Product) (pid₂ : Option String)
       (verify₂ : String → Except String StripeIntent) (email₂ : String),
       updateOrderToPaid now₂ db₂ orderC10 pid₂ verify₂ email₂ = .error .alreadyPaid) ∧
    (∀ s : String, webhookOrderMatches orderC10 s = false) :=
  cod_order_never_consumes_stock 9 77 4 sampleDb cartC10 (some sampleAddress)
    (.ok "unused") orderC10 (Cart.clearCart cartC10)
    (by norm_num +decide [createOrder, validShipping, sampleAddress, cartC10, validateStock,
      findById, sampleDb, orderItemOfCartItem, Order.calculateTotals, mathRound, orderC10,
      Cart.clearCart])
